import Mathlib

/-!
Shallow embedding of the air-sculptures Arduino firmware
(`src/main.cpp`, `src/myfunctions.h`) and verification of its
specification claims.

Conventions of the embedding:
* C machine integers are modelled as `Nat`; every value flowing through the
  modelled code is nonnegative, and C truncating division on nonnegative
  operands coincides with `Nat` division.  Fields of C type `uint8_t`
  (the FastLED `CHSV` components) are reduced `% 256` at every write, which
  is exactly the C conversion semantics.
* The LED pixel buffers, the FastLED fade (`fadeToBlackBy`,
  `getAverageLight`) and the HSV-to-RGB conversion live in the external
  render library (an external collaborator of the firmware).  The only
  information the state machine reads back from them is the boolean
  "both endpoint pixels are black" test (`strip1_has_fade`), so that test
  is modelled as an oracle input `hasFade` of each frame; all safety
  theorems below hold for every value of the oracle.
* `elapsedMillis` counters advance with wall-clock time; the time elapsed
  since the previous frame is the nondeterministic input `dt`.
* The build compiled here defines `__PM25__`, i.e. `SCULPTURE_ID = 2`;
  the dataset tables of all three sculptures are embedded.
-/

/-- Raw CO2 dataset 1 (`CO2_1` in `main.cpp`). -/
def CO2_1 : List Nat :=
  [1609, 577, 406, 419, 443, 414, 403, 413, 409, 411, 412, 409, 423, 414, 421, 434, 421]

/-- Raw CO2 dataset 2 (`CO2_2` in `main.cpp`). -/
def CO2_2 : List Nat :=
  [1685, 642, 618, 698, 697, 778, 450, 664, 648, 676, 425, 504, 550, 481, 640, 942, 1791,
   504, 733, 688, 592, 608, 850, 779, 1876, 646, 648, 659, 893, 422, 455, 701, 716, 892,
   1046, 455, 483, 503, 448, 550]

/-- Raw PM2.5 dataset 1 (`PM25_1` in `main.cpp`). -/
def PM25_1 : List Nat :=
  [118, 38, 34, 111, 125, 82, 178, 174, 43, 43, 42, 83, 63, 83, 85, 103, 68, 53, 54, 66]

/-- Raw PM2.5 dataset 2 (`PM25_2` in `main.cpp`). -/
def PM25_2 : List Nat :=
  [65, 88, 44, 42, 73, 69, 70, 61, 54, 89, 86, 91, 60, 63, 92, 88, 95, 55, 85, 49, 48, 51,
   35, 38, 49, 51, 21, 32, 28, 42, 21, 25]

/-- Raw VOC dataset 1 (`VOC_1` in `main.cpp`). -/
def VOC_1 : List Nat :=
  [8, 11, 5, 13, 16, 14, 15, 17, 15, 20, 29, 21, 22, 19, 14, 13, 19, 25, 17, 15, 13, 17,
   16, 15, 20, 17]

/-- Raw VOC dataset 2 (`VOC_2` in `main.cpp`). -/
def VOC_2 : List Nat :=
  [122, 67, 24, 36, 46, 32, 29, 34, 27, 25, 22, 23, 19, 23, 21, 33, 26, 34, 41, 15, 25, 18]

/-- `BAND_DELAY` from `main.cpp`: base fade-animation delay in ms. -/
def BAND_DELAY : Nat := 500

/-- `IDLE_MODE` from `main.cpp`. -/
def IDLE_MODE : Nat := 1

/-- `BUTTON_MODE` from `main.cpp`. -/
def BUTTON_MODE : Nat := 2

/-- The compiled variant defines `__PM25__`, hence `SCULPTURE_ID = 2`. -/
def SCULPTURE_ID : Nat := 2

/-- Hue of `cblue`, the default idle colour `CHSV cblue(140,255,255)`. -/
def cblueHue : Nat := 140

/-- Arduino core `map(x, inMin, inMax, outMin, outMax)`:
`(x - inMin) * (outMax - outMin) / (inMax - inMin) + outMin` on `long`s with
C truncating division.  Every call site in this firmware has
`x ≥ inMin ≥ 0` and `outMax ≥ outMin`, so `Nat` subtraction and division
agree with the C semantics. -/
def arduinoMap (x inMin inMax outMin outMax : Nat) : Nat :=
  (x - inMin) * (outMax - outMin) / (inMax - inMin) + outMin

/-- `register_readings()` from `myfunctions.h`: done once during setup,
translates the raw datasets of the selected sculpture into the two
brightness arrays `readings1`, `readings2`, element by element via
`int(map(raw, 0, domainMax, 0, 255))`.  (The `int` cast of the `long`
result never truncates here: all values are below `2^15`.) -/
def register_readings (sid : Nat) : List Nat × List Nat :=
  if sid = 1 then
    (CO2_1.map (fun x => arduinoMap x 0 1800 0 255),
     CO2_2.map (fun x => arduinoMap x 0 1800 0 255))
  else if sid = 2 then
    (PM25_1.map (fun x => arduinoMap x 0 125 0 255),
     PM25_2.map (fun x => arduinoMap x 0 125 0 255))
  else
    (VOC_1.map (fun x => arduinoMap x 0 130 0 255),
     VOC_2.map (fun x => arduinoMap x 0 130 0 255))

/-- The brightness sequence of strip 1 in the compiled (PM2.5) build. -/
def readings1 : List Nat := (register_readings SCULPTURE_ID).1

/-- The brightness sequence of strip 2 in the compiled (PM2.5) build. -/
def readings2 : List Nat := (register_readings SCULPTURE_ID).2

/-- Round-to-nearest (half rounds up) of the fraction `num / den`.
This is the `round` of the specification formula
`brightness = round((raw - domainMin) * 255 / (domainMax - domainMin))`;
it is a spec-side definition used only to compare the specified translation
against the one the code performs. -/
def specRound (num den : Nat) : Nat := (2 * num + den) / (2 * den)

/-- The specification translation formula with `round`, written from the
spec words (spec-side definition for the refinement comparison). -/
def translateRoundSpec (raw dmin dmax : Nat) : Nat :=
  specRound ((raw - dmin) * 255) (dmax - dmin)

/-- The translation formula with truncating (floor) division in place of
`round` — what the code actually computes per element. -/
def translateFloorSpec (raw dmin dmax : Nat) : Nat :=
  (raw - dmin) * 255 / (dmax - dmin)

/-- Sensor branch of `read_console()` (executed when the 100 ms poll gate
opens).  Input: the VL53L0X ranging status and millimeter distance; `4` is
the phase-failure status.  Output: the new `(isUserPresent, rangeVal)`
pair; on a phase failure `rangeVal` keeps its previous value. -/
def read_console_sensor (status dist prevRange : Nat) : Bool × Nat :=
  if status ≠ 4 then
    (if dist > 1000 then (false, dist) else (true, dist))
  else
    (false, prevRange)

/-- `do_colour_variation()` from `myfunctions.h`: returns the new
`(strip1Color.hue, strip2Color.hue)` pair.  The hue fields are `uint8_t`,
so the `map(rangeVal, 0, 500, 76, 204)` result is reduced `% 256` on
store. -/
def do_colour_variation (isUserPresent : Bool) (rangeVal : Nat) : Nat × Nat :=
  if isUserPresent then
    (arduinoMap rangeVal 0 500 76 204 % 256, arduinoMap rangeVal 0 500 76 204 % 256)
  else
    (cblueHue, cblueHue)

/-- `strip1_get_brightness` / `strip2_get_brightness` from `myfunctions.h`
(the two are textually identical up to which strip's globals they read):
if the direction flag is down (`isMax = false`) increment and clamp at
`maxLvl`, else decrement and clamp at `0` (`Nat` subtraction clamps). -/
def strip_get_brightness (maxLvl : Nat) (isMax : Bool) (b : Nat) : Nat :=
  if !isMax then
    (if maxLvl < b + 1 then maxLvl else b + 1)
  else
    b - 1

/-- One idle ping-pong step on the `(brightness, isMaxBrightness)` pair, as
performed by `strip1_idle_animation` / `strip2_idle_animation`: compute the
new bright level, then flip the direction flag at the extremes
(`brightlevel == maxLvl` sets it, `brightlevel == 0` clears it). -/
def idleStep (maxLvl : Nat) (st : Nat × Bool) : Nat × Bool :=
  (strip_get_brightness maxLvl st.2 st.1,
   if strip_get_brightness maxLvl st.2 st.1 = maxLvl then true
   else if strip_get_brightness maxLvl st.2 st.1 = 0 then false
   else st.2)

/-- Iterated idle ping-pong step. -/
def idleIter (maxLvl : Nat) : Nat → Nat × Bool → Nat × Bool
  | 0, st => st
  | n + 1, st => idleIter maxLvl n (idleStep maxLvl st)

/-- The per-frame brightness interpolation of the playback phase
(`strip1_playback_readings`, `activeLedState == 1`, inside the dwell
window): `curr` is the target `readings[counter]`, `prev` the previous
target, `val` the current `strip1Color.val`.  `val` is a `uint8_t`, so
`+= 10` and `-= 10` are computed modulo 256 (`-10 ≡ +246`). -/
def interpUpdate (val curr prev : Nat) : Nat :=
  if prev < curr then
    (if val < curr then (val + 10) % 256 else val)
  else
    (if curr < val then (val + 246) % 256 else val)

/-- FastLED `CHSV` colour record (all fields `uint8_t`). -/
structure CHSV where
  hue : Nat
  sat : Nat
  val : Nat
deriving DecidableEq, Repr

/-- Result record of `strip2_idle_animation`: the updated `strip2Color`,
the colours written to strip 2's pixel buffer, and the updated
`(strip2brightness, strip2isMaxBrightness)` pair. -/
structure Strip2IdleResult where
  c2out : CHSV
  pixels : List CHSV
  brightness : Nat
  isMax : Bool
deriving DecidableEq, Repr

/-- `strip2_idle_animation()` from `myfunctions.h`, with the pixel writes
made explicit.  It first updates `strip2Color.val` and the brightness
state, then writes every pixel of strip 2's buffer: when
`SCULPTURE_ID == 1` it writes `strip1Color` (sic) to all `BAND2` pixels,
otherwise the updated `strip2Color`.  `n` is the pixel count (the `BAND2`
macro, defined outside the two source files). -/
def strip2_idle_animation (sid : Nat) (c1 c2 : CHSV) (b maxLvl : Nat)
    (flag : Bool) (n : Nat) : Strip2IdleResult :=
  { c2out := { c2 with val := (idleStep maxLvl (b, flag)).1 % 256 }
    pixels :=
      if sid = 1 then List.replicate n c1
      else List.replicate n { c2 with val := (idleStep maxLvl (b, flag)).1 % 256 }
    brightness := (idleStep maxLvl (b, flag)).1
    isMax := (idleStep maxLvl (b, flag)).2 }

/-- Per-strip mutable state of the animation engine: the globals of
`main.cpp` for one strip (the LED pixel buffers live in the external
render library and are not part of this record). -/
structure StripState where
  playMode : Nat
  brightness : Nat
  maxBrightLvl : Nat
  hasPlayModeChanged : Bool
  activeLedState : Nat
  isMaxBrightness : Bool
  bandms : Nat
  bandDelay : Nat
  readingsCounter : Nat
  prevBrightVal : Nat
  currBrightVal : Nat
  colorVal : Nat
deriving DecidableEq, Repr

/-- Initial global state of a strip at the end of `setup()`:
`playMode = IDLE_MODE`, counters zero, `bandDelay = BAND_DELAY`,
`maxBrightLvl = 255`, and the strip colour is `cblue` whose `val` is
255. -/
def initStrip : StripState :=
  { playMode := IDLE_MODE
    brightness := 0
    maxBrightLvl := 255
    hasPlayModeChanged := false
    activeLedState := 0
    isMaxBrightness := false
    bandms := 0
    bandDelay := BAND_DELAY
    readingsCounter := 0
    prevBrightVal := 0
    currBrightVal := 0
    colorVal := 255 }

/-- The strip-1 half of `set_playMode()` when its button flag is consumed
(`isButton0Pressed == true`): switch to `BUTTON_MODE`, raise the
mode-change flag, reset `activeLedState` to 0 and quarter the fade delay.
The strip-2 half is textually identical on strip 2's globals. -/
def set_playMode1 (pressed : Bool) (s : StripState) : StripState :=
  if pressed then
    { s with playMode := BUTTON_MODE
             hasPlayModeChanged := true
             activeLedState := 0
             bandDelay := BAND_DELAY / 4 }
  else s

/-- `strip1_go_idle()` from `myfunctions.h`. -/
def go_idle (s : StripState) : StripState :=
  { s with activeLedState := 0
           playMode := IDLE_MODE
           hasPlayModeChanged := true
           bandDelay := BAND_DELAY
           maxBrightLvl := 255
           isMaxBrightness := false
           brightness := 0
           bandms := 0 }

/-- State part of `strip1_idle_animation()`: advance the ping-pong step and
store the bright level into `strip1Color.val` (a `uint8_t`); the uniform
pixel writes go to the external buffer. -/
def idle_animation (s : StripState) : StripState :=
  { s with brightness := (idleStep s.maxBrightLvl (s.brightness, s.isMaxBrightness)).1
           colorVal := (idleStep s.maxBrightLvl (s.brightness, s.isMaxBrightness)).1 % 256
           isMaxBrightness := (idleStep s.maxBrightLvl (s.brightness, s.isMaxBrightness)).2 }

/-- `strip1_playback_readings()` from `myfunctions.h` (state part; the
`strip1_fade` / `strip1_set_brightLevel` pixel writes go to the external
buffer and the endpoint-black test `strip1_has_fade()` is the oracle input
`hasFade`).  `rd` is the strip's brightness sequence (`readings1`);
`strip2_playback_readings` is the same function on `readings2` and strip
2's globals. -/
def playback_readings (rd : List Nat) (hasFade : Bool) (s : StripState) : StripState :=
  if s.activeLedState = 0 then
    (if hasFade then
      { s with activeLedState := 1
               bandms := 0
               readingsCounter := 0
               currBrightVal := 0
               prevBrightVal := 0
               colorVal := 0 }
     else s)
  else if s.activeLedState = 1 then
    (if s.bandms < BAND_DELAY * 2 then
      { s with currBrightVal := rd.getD s.readingsCounter 0
               colorVal := interpUpdate s.colorVal (rd.getD s.readingsCounter 0) s.prevBrightVal }
     else if s.readingsCounter + 1 = rd.length then
      { s with prevBrightVal := s.currBrightVal
               readingsCounter := s.readingsCounter + 1
               bandms := 0
               activeLedState := 2 }
     else
      { s with prevBrightVal := s.currBrightVal
               readingsCounter := s.readingsCounter + 1
               bandms := 0 })
  else if s.activeLedState = 2 then
    (if hasFade then go_idle s else s)
  else s

/-- Nondeterministic environment inputs of one frame for one strip:
the time elapsed since the previous frame (`elapsedMillis` advance), the
debounced button falling-edge flag, and the external endpoint-black
test. -/
structure FrameInput where
  dt : Nat
  pressed : Bool
  hasFade : Bool
deriving DecidableEq, Repr

/-- Mode dispatch of `loop()` for one strip. -/
def dispatch (rd : List Nat) (hasFade : Bool) (s : StripState) : StripState :=
  if s.playMode = IDLE_MODE then idle_animation s
  else if s.playMode = BUTTON_MODE then playback_readings rd hasFade s
  else s

/-- One iteration of `loop()` restricted to one strip's state: the
`elapsedMillis` counter advances by `dt`, `set_playMode()` consumes a
pending button press, then the mode dispatch runs. -/
def frameStep (rd : List Nat) (s : StripState) (inp : FrameInput) : StripState :=
  dispatch rd inp.hasFade (set_playMode1 inp.pressed { s with bandms := s.bandms + inp.dt })

/-- Iterated frames under a constant environment input. -/
def frameIter (rd : List Nat) (inp : FrameInput) : Nat → StripState → StripState
  | 0, s => s
  | n + 1, s => frameIter rd inp n (frameStep rd s inp)

/-- States of one strip reachable from power-up under arbitrary
environment inputs. -/
inductive Reachable (rd : List Nat) : StripState → Prop where
  | init : Reachable rd initStrip
  | step : ∀ {s} (inp : FrameInput), Reachable rd s → Reachable rd (frameStep rd s inp)

/-- Trajectory used to exhibit playback interpolation undershoot: press the
button, complete the fade-out, then run 117 frames of ~10 ms.  The first
dwell window drives the value to target 240; the second window has target
`readings1[1] = 77` and the −10 stepping passes it. -/
def interpTrajectory : StripState :=
  frameIter readings1 ⟨10, false, false⟩ 117
    (frameStep readings1 (frameStep readings1 initStrip ⟨10, true, false⟩) ⟨10, false, true⟩)

/-- State after 255 idle frames (brightness ramped to 255, direction flag
raised) followed by a frame whose button press is consumed. -/
def c2State : StripState :=
  frameStep readings1 (frameIter readings1 ⟨10, false, false⟩ 255 initStrip) ⟨10, true, false⟩

/-- Position-to-state map of the idle ping-pong cycle of length 510:
positions 0..254 are the ascending half, positions 255..509 the
descending half. -/
def stOf (p : Nat) : Nat × Bool := if p ≤ 254 then (p, false) else (510 - p, true)

/-- Milestone of the idle run towards `c2State`: 85 idle frames. -/
def idleMidA : StripState :=
  { initStrip with brightness := 85, bandms := 850, colorVal := 85 }

/-- Milestone of the idle run towards `c2State`: 170 idle frames. -/
def idleMidB : StripState :=
  { initStrip with brightness := 170, bandms := 1700, colorVal := 170 }

/-- Milestone of the idle run towards `c2State`: 255 idle frames, the
brightness has reached 255 and the direction flag is raised. -/
def idleMidC : StripState :=
  { initStrip with brightness := 255, bandms := 2550, colorVal := 255, isMaxBrightness := true }

/-- Milestone of `interpTrajectory`: state right after the button frame. -/
def interpMidA : StripState :=
  { initStrip with playMode := 2, hasPlayModeChanged := true, bandms := 10, bandDelay := 125 }

/-- Milestone of `interpTrajectory`: the fade-out completed, interpolation
phase entered with cursor, targets and colour value zeroed. -/
def interpMidB : StripState :=
  { initStrip with playMode := 2, hasPlayModeChanged := true, activeLedState := 1,
                   bandms := 0, bandDelay := 125, colorVal := 0 }

/-- Milestone of `interpTrajectory`: 60 interpolation frames later the
colour value has ramped in +10 steps exactly onto the first target 240. -/
def interpMidC : StripState :=
  { initStrip with playMode := 2, hasPlayModeChanged := true, activeLedState := 1,
                   bandms := 600, bandDelay := 125, currBrightVal := 240, colorVal := 240 }

/-- Final state of `interpTrajectory`: the second dwell window (target 77,
previous target 240) is in progress and the −10 stepping has passed the
target, resting at 70. -/
def interpFinal : StripState :=
  { initStrip with playMode := 2, hasPlayModeChanged := true, activeLedState := 1,
                   bandms := 170, bandDelay := 125, readingsCounter := 1,
                   prevBrightVal := 240, currBrightVal := 77, colorVal := 70 }

set_option maxRecDepth 8000

/-- C6: on every poll of the distance sensor, the presence signal is set to
present iff the returned millimeter distance is at most 1000 and the ranging
status is valid (not the phase-failure code 4); on a phase-failure status the
result is not-present, computed locally by `read_console_sensor` with no
propagation. -/
theorem presence_classification (status dist prevRange : Nat) :
    (read_console_sensor status dist prevRange).1 = true ↔ status ≠ 4 ∧ dist ≤ 1000 := by
  unfold read_console_sensor
  split_ifs with h1 h2 <;> simp_all

/-- C7 counterexample: with presence true and a reachable distance of 704 mm
(valid status, below the 1000 mm presence cutoff), the code stores hue 0,
while the linear map of 704 from [0,500] to [76,204] is 256: the 8-bit hue
field wraps, so the hue does not equal the unclamped linear map. -/
theorem hue_wrap_cex :
    (do_colour_variation true 704).1 = 0 ∧ 76 + 704 * 128 / 500 = 256 ∧ (0 : Nat) ≠ 256 := by
  decide

/-- C7 (amended): with presence true both strips' hue equals the Arduino
linear map of the distance from [0,500] to [76,204] reduced modulo 256 (the
8-bit hue field); for distances up to 703 no wrap occurs and the hue equals
the unreduced linear map (in particular 0 ↦ 76 and 500 ↦ 204); with presence
false both hues are the fixed default 140. -/
theorem hue_mapping_amended (d : Nat) :
    (do_colour_variation true d).1 = (d * 128 / 500 + 76) % 256 ∧
    (do_colour_variation true d).2 = (d * 128 / 500 + 76) % 256 ∧
    (d ≤ 703 → (do_colour_variation true d).1 = d * 128 / 500 + 76) ∧
    (do_colour_variation false d).1 = 140 ∧
    (do_colour_variation false d).2 = 140 := by
  refine ⟨by simp [do_colour_variation, arduinoMap], by simp [do_colour_variation, arduinoMap], ?_, rfl, rfl⟩
  intro hd
  have hdiv : d * 128 / 500 < 180 := by
    rw [Nat.div_lt_iff_lt_mul (by norm_num)]
    omega
  simp [do_colour_variation, arduinoMap, Nat.mod_eq_of_lt (by omega : d * 128 / 500 + 76 < 256)]

/-- Witness for `hue_mapping_amended` at distance 500: no wrap, hue is the
linear map value (204). -/
theorem hue_mapping_amended_witness :
    (500 : Nat) ≤ 703 ∧ (do_colour_variation true 500).1 = 500 * 128 / 500 + 76 :=
  ⟨by decide, (hue_mapping_amended 500).2.2.1 (by decide)⟩

/-- C3 counterexample: at index 0 of the PM2.5 build's first dataset the raw
value is 118 and the startup translation stores
`map(118,0,125,0,255) = 240`, while the specified
`round((118 - 0) * 255 / (125 - 0)) = round(240.72) = 241`. -/
theorem translate_round_cex :
    (register_readings 2).1.getD 0 0 = 240 ∧
    translateRoundSpec (PM25_1.getD 0 0) 0 125 = 241 ∧
    (240 : Nat) ≠ 241 := by
  decide

/-- C3 (amended): for the compiled datasets and domain ranges, the startup
translation produces at every index the value
`floor((D[i] - min) * 255 / (max - min))` — truncating integer division
(Arduino `map`), not round-to-nearest. -/
theorem translate_floor :
    (∀ i, i < 20 →
      (register_readings 2).1.getD i 0 = translateFloorSpec (PM25_1.getD i 0) 0 125) ∧
    (∀ i, i < 32 →
      (register_readings 2).2.getD i 0 = translateFloorSpec (PM25_2.getD i 0) 0 125) := by
  decide

/-- Witness for `translate_floor` at index 0 of the first dataset. -/
theorem translate_floor_witness :
    (0 : Nat) < 20 ∧
    (register_readings 2).1.getD 0 0 = translateFloorSpec (PM25_1.getD 0 0) 0 125 :=
  ⟨by decide, translate_floor.1 0 (by decide)⟩

/-- C9: when the sculpture identity is 1 (CO2), strip 2's idle animation
writes strip 1's colour record (hue, saturation and brightness value of
`strip1Color`) to every pixel of strip 2's LED array, not strip 2's own
updated colour record. -/
theorem strip2_idle_uses_strip1_color (c1 c2 : CHSV) (b maxLvl : Nat) (flag : Bool) (n : Nat) :
    (strip2_idle_animation 1 c1 c2 b maxLvl flag n).pixels = List.replicate n c1 := by
  simp [strip2_idle_animation]

/-- Splitting lemma for iterated frames, used to keep kernel evaluation of
long concrete trajectories shallow. -/
theorem frameIter_add (rd : List Nat) (inp : FrameInput) (m n : Nat) (s : StripState) :
    frameIter rd inp (m + n) s = frameIter rd inp n (frameIter rd inp m s) := by
  induction m generalizing s with
  | zero => rw [Nat.zero_add]; rfl
  | succ m ih =>
    have e : m + 1 + n = (m + n) + 1 := by omega
    rw [e]
    exact ih (frameStep rd s inp)

/-- C2 counterexample: a reachable `Idle → Playback(FadeOut)` transition
that does not reset the brightness-max flag.  After 255 idle frames the
flag is raised; consuming the activate flag on the next frame enters
playback fade-out with the flag still `true`, while the claim requires it
reset to `false`. -/
theorem activate_flag_cex :
    c2State.playMode = BUTTON_MODE ∧ c2State.activeLedState = 0 ∧
    c2State.isMaxBrightness = true := by
  have hA : frameIter readings1 ⟨10, false, false⟩ 85 initStrip = idleMidA := by decide
  have hB : frameIter readings1 ⟨10, false, false⟩ 85 idleMidA = idleMidB := by decide
  have hC : frameIter readings1 ⟨10, false, false⟩ 85 idleMidB = idleMidC := by decide
  have h255 : frameIter readings1 ⟨10, false, false⟩ 255 initStrip = idleMidC := by
    rw [show (255 : Nat) = 85 + (85 + 85) from by norm_num,
        frameIter_add, hA, frameIter_add, hB, hC]
  unfold c2State
  rw [h255]
  decide

/-- C2 (amended): consuming a strip's activate flag switches to playback
fade-out with the fade delay set to the base delay divided by 4 and the
mode-change flag raised; the current brightness is not forced to 0 (both
`brightness` and the colour value are left unchanged), and the
brightness-max flag is also left unchanged (it is reset only by
`strip1_go_idle` at the end of playback). -/
theorem activate_transition_amended (s : StripState) :
    (set_playMode1 true s).playMode = BUTTON_MODE ∧
    (set_playMode1 true s).activeLedState = 0 ∧
    (set_playMode1 true s).hasPlayModeChanged = true ∧
    (set_playMode1 true s).bandDelay = BAND_DELAY / 4 ∧
    (set_playMode1 true s).isMaxBrightness = s.isMaxBrightness ∧
    (set_playMode1 true s).brightness = s.brightness ∧
    (set_playMode1 true s).colorVal = s.colorVal := by
  simp [set_playMode1]

/-- C8: in every state of a strip (any playback phase included), consuming
the activate flag sets the play mode to `BUTTON_MODE`, resets the playback
phase to fade-out (`activeLedState = 0`), raises the mode-change flag and
sets the fade delay to `BAND_DELAY / 4` — a press during an ongoing
playback restarts it from the fade-to-black phase. -/
theorem button_restarts_playback (s : StripState) :
    (set_playMode1 true s).playMode = BUTTON_MODE ∧
    (set_playMode1 true s).activeLedState = 0 ∧
    (set_playMode1 true s).hasPlayModeChanged = true ∧
    (set_playMode1 true s).bandDelay = BAND_DELAY / 4 := by
  simp [set_playMode1]

/-- C1 counterexample: a reachable playback state refuting "decrement by 10
per frame without ever undershooting".  In the actual PM2.5 playback, after
the first target 240 the second target is `readings1[1] = 77`; the −10
stepping inside the dwell window passes the target and rests at 70 < 77.
`interpTrajectory` ends mid-dwell (bandms 170 < 1000) with the colour value
strictly below the current target. -/
theorem interp_undershoot_cex :
    interpTrajectory.playMode = BUTTON_MODE ∧
    interpTrajectory.activeLedState = 1 ∧
    interpTrajectory.bandms < BAND_DELAY * 2 ∧
    interpTrajectory.currBrightVal = 77 ∧
    interpTrajectory.prevBrightVal = 240 ∧
    interpTrajectory.colorVal = 70 ∧
    interpTrajectory.colorVal < interpTrajectory.currBrightVal := by
  have h1 : frameStep readings1 initStrip ⟨10, true, false⟩ = interpMidA := by decide
  have h2 : frameStep readings1 interpMidA ⟨10, false, true⟩ = interpMidB := by decide
  have h3 : frameIter readings1 ⟨10, false, false⟩ 60 interpMidB = interpMidC := by decide
  have h4 : frameIter readings1 ⟨10, false, false⟩ 57 interpMidC = interpFinal := by decide
  have hT : interpTrajectory = interpFinal := by
    unfold interpTrajectory
    rw [h1, h2, show (117 : Nat) = 60 + 57 from by norm_num, frameIter_add, h3, h4]
  rw [hT]
  decide

/-- C1 (amended): in the interpolation step, with target `curr` and
previous target `prev`, the current 8-bit value is incremented by 10
(modulo 256) per frame while strictly below a target larger than the
previous one, and decremented by 10 per frame while strictly above a
target not larger than the previous one, in both cases stopping only once
it is no longer on the starting side — so a step can overshoot or
undershoot the target by up to 9 (and the `uint8_t` arithmetic wraps
modulo 256). -/
theorem interp_step_amended (val curr prev : Nat) (hval : val ≤ 255) :
    (prev < curr → val < curr → interpUpdate val curr prev = (val + 10) % 256) ∧
    (prev < curr → curr ≤ val → interpUpdate val curr prev = val) ∧
    (¬ prev < curr → curr < val → interpUpdate val curr prev = (val + 246) % 256) ∧
    (¬ prev < curr → val ≤ curr → interpUpdate val curr prev = val) ∧
    (prev < curr → val < curr → val + 10 ≤ 255 → interpUpdate val curr prev ≤ curr + 9) ∧
    (¬ prev < curr → curr < val → 10 ≤ val →
      interpUpdate val curr prev = val - 10 ∧ curr ≤ interpUpdate val curr prev + 9) := by
  unfold interpUpdate
  refine ⟨?_, ?_, ?_, ?_, ?_, ?_⟩
  · intro h1 h2; rw [if_pos h1, if_pos h2]
  · intro h1 h2; rw [if_pos h1, if_neg (not_lt.mpr h2)]
  · intro h1 h2; rw [if_neg h1, if_pos h2]
  · intro h1 h2; rw [if_neg h1, if_neg (not_lt.mpr h2)]
  · intro h1 h2 h3
    rw [if_pos h1, if_pos h2, Nat.mod_eq_of_lt (by omega)]
    omega
  · intro h1 h2 h3
    rw [if_neg h1, if_pos h2]
    have hsub : (val + 246) % 256 = val - 10 := by
      rw [Nat.mod_eq_sub_mod (by omega)]
      have e : val + 246 - 256 = val - 10 := by omega
      rw [e, Nat.mod_eq_of_lt (by omega)]
    rw [hsub]
    exact ⟨rfl, by omega⟩

/-- Witness for `interp_step_amended` at the concrete reachable
interpolation step value 80, target 77, previous target 240. -/
theorem interp_step_amended_witness :
    ((240 : Nat) < 77 → 80 < 77 → interpUpdate 80 77 240 = (80 + 10) % 256) ∧
    ((240 : Nat) < 77 → 77 ≤ 80 → interpUpdate 80 77 240 = 80) ∧
    (¬ (240 : Nat) < 77 → 77 < 80 → interpUpdate 80 77 240 = (80 + 246) % 256) ∧
    (¬ (240 : Nat) < 77 → 80 ≤ 77 → interpUpdate 80 77 240 = 80) ∧
    ((240 : Nat) < 77 → 80 < 77 → 80 + 10 ≤ 255 → interpUpdate 80 77 240 ≤ 77 + 9) ∧
    (¬ (240 : Nat) < 77 → 77 < 80 → 10 ≤ 80 →
      interpUpdate 80 77 240 = 80 - 10 ∧ 77 ≤ interpUpdate 80 77 240 + 9) :=
  interp_step_amended 80 77 240 (by decide)

/-- The idle ping-pong step carries the cycle map `stOf` to a rotation by
one of the 510 cycle positions. -/
theorem idleStep_stOf : ∀ p, p < 510 → idleStep 255 (stOf p) = stOf ((p + 1) % 510) := by
  decide

/-- Iterating the idle ping-pong step rotates the cycle position. -/
theorem idleIter_stOf (n : Nat) :
    ∀ p, p < 510 → idleIter 255 n (stOf p) = stOf ((p + n) % 510) := by
  induction n with
  | zero =>
    intro p hp
    show stOf p = stOf ((p + 0) % 510)
    rw [Nat.add_zero, Nat.mod_eq_of_lt hp]
  | succ n ih =>
    intro p hp
    show idleIter 255 n (idleStep 255 (stOf p)) = stOf ((p + (n + 1)) % 510)
    rw [idleStep_stOf p hp, ih ((p + 1) % 510) (Nat.mod_lt _ (by norm_num)),
        Nat.mod_add_mod]
    congr 1
    omega

/-- C5 counterexample: starting from brightness 0 with the direction flag
raised (descending), 2×255 idle ping-pong steps do not return to the
starting state: the first step clamps at 0 and flips the flag, losing one
cycle position, so the run ends at brightness 1. -/
theorem idle_pingpong_cex :
    idleIter 255 (2 * 255) (0, true) = (1, true) ∧ (1 : Nat) ≠ 0 := by
  constructor
  · rw [show (2 : Nat) * 255 = 509 + 1 from by norm_num]
    show idleIter 255 509 (idleStep 255 (0, true)) = (1, true)
    rw [show idleStep 255 (0, true) = stOf 0 from by decide,
        idleIter_stOf 509 0 (by norm_num)]
    decide
  · decide

/-- C5 (amended): for every starting brightness `b ≤ 255` and direction
flag consistent with the ping-pong cycle (descending requires `b ≥ 1`,
ascending requires `b ≤ 254`), applying the idle ping-pong step
2×255 times (`maxBrightLvl` is 255 whenever a strip idles) returns the
`(brightness, flag)` state to its starting value. -/
theorem idle_pingpong_amended (b : Nat) (flag : Bool) (hb : b ≤ 255)
    (h1 : flag = true → 1 ≤ b) (h0 : flag = false → b ≤ 254) :
    idleIter 255 (2 * 255) (b, flag) = (b, flag) := by
  have key : ∀ p, p < 510 → idleIter 255 (2 * 255) (stOf p) = stOf p := by
    intro p hp
    rw [show (2 : Nat) * 255 = 510 from by norm_num,
        idleIter_stOf 510 p hp, Nat.add_mod_right, Nat.mod_eq_of_lt hp]
  cases flag
  · have hb2 : b ≤ 254 := h0 rfl
    have hst : stOf b = (b, false) := by simp [stOf, hb2]
    have hk := key b (by omega)
    rw [hst] at hk
    exact hk
  · have hb1 : 1 ≤ b := h1 rfl
    have hst : stOf (510 - b) = (b, true) := by
      have hnot : ¬ (510 - b ≤ 254) := by omega
      have hsub : 510 - (510 - b) = b := by omega
      simp [stOf, hnot, hsub]
    have hk := key (510 - b) (by omega)
    rw [hst] at hk
    exact hk

/-- Witness for `idle_pingpong_amended` at brightness 100, ascending. -/
theorem idle_pingpong_amended_witness :
    (100 : Nat) ≤ 255 ∧ idleIter 255 (2 * 255) (100, false) = (100, false) :=
  ⟨by decide, idle_pingpong_amended 100 false (by decide) (by decide) (by decide)⟩

/-- C10: the playback colour value is an 8-bit field, so the ±10 steps are
taken modulo 256; the translated PM2.5 brightness sequence contains
targets above 255 (raw 178 and 174 at indices 6 and 7 map to 363 and 354
under domain range [0,125]); for any target above 255 every in-window
frame increments by 10 modulo 256 (the stored value, being at most 255, is
always below the target), the stored value never equals the target, and
once the value exceeds 245 the +10 step wraps around past 255. -/
theorem playback_target_overflow :
    readings1.getD 6 0 = 363 ∧
    readings1.getD 7 0 = 354 ∧
    PM25_1.getD 6 0 = 178 ∧
    PM25_1.getD 7 0 = 174 ∧
    arduinoMap 178 0 125 0 255 = 363 ∧
    (255 : Nat) < 363 ∧
    (∀ val curr prev : Nat, val ≤ 255 → 255 < curr → prev < curr →
      interpUpdate val curr prev = (val + 10) % 256 ∧ interpUpdate val curr prev ≠ curr) ∧
    (∀ val curr prev : Nat, 246 ≤ val → val ≤ 255 → 255 < curr → prev < curr →
      interpUpdate val curr prev < val) := by
  refine ⟨by decide, by decide, by decide, by decide, by decide, by decide, ?_, ?_⟩
  · intro val curr prev hval hcurr hprev
    have hv : val < curr := by omega
    constructor
    · unfold interpUpdate
      rw [if_pos hprev, if_pos hv]
    · unfold interpUpdate
      rw [if_pos hprev, if_pos hv]
      have hm : (val + 10) % 256 < 256 := Nat.mod_lt _ (by norm_num)
      omega
  · intro val curr prev h246 hval hcurr hprev
    have hv : val < curr := by omega
    unfold interpUpdate
    rw [if_pos hprev, if_pos hv, Nat.mod_eq_sub_mod (by omega), Nat.mod_eq_of_lt (by omega)]
    omega

/-- Witness for `playback_target_overflow` at value 250 and the overflowing
target 363: the step wraps to 4, never reaching the target. -/
theorem playback_target_overflow_witness :
    (250 : Nat) ≤ 255 ∧
    interpUpdate 250 363 0 = (250 + 10) % 256 ∧
    interpUpdate 250 363 0 ≠ 363 ∧
    interpUpdate 250 363 0 < 250 :=
  ⟨by decide,
   (playback_target_overflow.2.2.2.2.2.2.1 250 363 0 (by decide) (by decide) (by decide)).1,
   (playback_target_overflow.2.2.2.2.2.2.1 250 363 0 (by decide) (by decide) (by decide)).2,
   playback_target_overflow.2.2.2.2.2.2.2 250 363 0 (by decide) (by decide) (by decide) (by decide)⟩
/-- Invariant preservation through one `playback_readings` call: if the
cursor is in range whenever the interpolation phase is active, the same
holds afterwards. -/
theorem playback_cursor_inv (rd : List Nat) (hlen : 0 < rd.length) (hf : Bool)
    (t : StripState) (ih : t.activeLedState = 1 → t.readingsCounter < rd.length) :
    (playback_readings rd hf t).activeLedState = 1 →
    (playback_readings rd hf t).readingsCounter < rd.length := by
  unfold playback_readings go_idle
  split_ifs <;> intro ha <;> simp_all <;> omega

/-- Invariant preservation through one full frame of one strip. -/
theorem frame_cursor_inv (rd : List Nat) (hlen : 0 < rd.length)
    (s : StripState) (inp : FrameInput)
    (ih : s.playMode = BUTTON_MODE → s.activeLedState = 1 → s.readingsCounter < rd.length) :
    (frameStep rd s inp).playMode = BUTTON_MODE →
    (frameStep rd s inp).activeLedState = 1 →
    (frameStep rd s inp).readingsCounter < rd.length := by
  cases hp : inp.pressed
  case false =>
    have hstep : frameStep rd s inp
        = dispatch rd inp.hasFade { s with bandms := s.bandms + inp.dt } := by
      unfold frameStep set_playMode1
      rw [hp]
      simp
    rw [hstep]
    unfold dispatch
    by_cases hm : s.playMode = IDLE_MODE
    · rw [if_pos (show ({ s with bandms := s.bandms + inp.dt } : StripState).playMode = IDLE_MODE from hm)]
      intro h1
      have hpm : (idle_animation { s with bandms := s.bandms + inp.dt }).playMode = s.playMode := rfl
      rw [hpm, hm] at h1
      exact absurd h1 (by decide)
    · rw [if_neg (show ¬ ({ s with bandms := s.bandms + inp.dt } : StripState).playMode = IDLE_MODE from hm)]
      by_cases hb : s.playMode = BUTTON_MODE
      · rw [if_pos (show ({ s with bandms := s.bandms + inp.dt } : StripState).playMode = BUTTON_MODE from hb)]
        intro _ h2
        refine playback_cursor_inv rd hlen inp.hasFade _ ?_ h2
        intro ha
        exact ih hb ha
      · rw [if_neg (show ¬ ({ s with bandms := s.bandms + inp.dt } : StripState).playMode = BUTTON_MODE from hb)]
        intro h1
        exact absurd h1 hb
  case true =>
    have hstep : frameStep rd s inp
        = playback_readings rd inp.hasFade
            { s with playMode := BUTTON_MODE, hasPlayModeChanged := true,
                     activeLedState := 0, bandDelay := BAND_DELAY / 4,
                     bandms := s.bandms + inp.dt } := by
      unfold frameStep set_playMode1 dispatch
      rw [hp]
      rfl
    rw [hstep]
    unfold playback_readings
    rw [if_pos rfl]
    cases hfd : inp.hasFade
    · rw [if_neg (by decide)]
      intro _ h2
      exact absurd (show (0 : Nat) = 1 from h2) (by decide)
    · rw [if_pos rfl]
      intro _ _
      exact hlen

/-- C4: in every reachable state of a strip's animation engine, whenever
the interpolation phase is active (`BUTTON_MODE`, `activeLedState = 1`)
the sequence cursor is strictly below the brightness-sequence length — the
phase never reads the sequence outside `[0, length-1]`; moreover, when the
cursor sits at the last index and the dwell window elapses (no intervening
button press), the frame transitions to the fade-to-idle phase
(`activeLedState = 2`), never re-entering interpolation with an
out-of-range cursor. -/
theorem playback_cursor_safety (rd : List Nat) (s : StripState)
    (hlen : 0 < rd.length) (h : Reachable rd s) :
    (s.playMode = BUTTON_MODE → s.activeLedState = 1 → s.readingsCounter < rd.length) ∧
    (∀ inp : FrameInput, s.playMode = BUTTON_MODE → s.activeLedState = 1 →
      s.readingsCounter = rd.length - 1 → inp.pressed = false →
      BAND_DELAY * 2 ≤ s.bandms + inp.dt →
      (frameStep rd s inp).activeLedState = 2) := by
  constructor
  · induction h with
    | init => intro h1; exact absurd h1 (by decide)
    | step inp hs ih => exact frame_cursor_inv rd hlen _ inp ih
  · intro inp hm hs hc hp hd
    have hstep : frameStep rd s inp
        = playback_readings rd inp.hasFade { s with bandms := s.bandms + inp.dt } := by
      unfold frameStep set_playMode1 dispatch
      rw [hp]
      rw [if_neg (show ¬ (false = true) from by decide)]
      rw [if_neg (show ¬ ({ s with bandms := s.bandms + inp.dt } : StripState).playMode = IDLE_MODE from by
            rw [show ({ s with bandms := s.bandms + inp.dt } : StripState).playMode = s.playMode from rfl, hm]
            decide)]
      rw [if_pos (show ({ s with bandms := s.bandms + inp.dt } : StripState).playMode = BUTTON_MODE from hm)]
    rw [hstep]
    unfold playback_readings
    rw [if_neg (show ¬ ({ s with bandms := s.bandms + inp.dt } : StripState).activeLedState = 0 from by
          rw [show ({ s with bandms := s.bandms + inp.dt } : StripState).activeLedState = s.activeLedState from rfl, hs]
          decide)]
    rw [if_pos (show ({ s with bandms := s.bandms + inp.dt } : StripState).activeLedState = 1 from hs)]
    rw [if_neg (show ¬ ({ s with bandms := s.bandms + inp.dt } : StripState).bandms < BAND_DELAY * 2 from by
          show ¬ s.bandms + inp.dt < BAND_DELAY * 2
          omega)]
    rw [if_pos (show ({ s with bandms := s.bandms + inp.dt } : StripState).readingsCounter + 1 = rd.length from by
          show s.readingsCounter + 1 = rd.length
          omega)]

/-- Witness for `playback_cursor_safety`: the initial state with strip 1's
brightness sequence. -/
theorem playback_cursor_safety_witness :
    (0 : Nat) < readings1.length ∧
    (initStrip.playMode = BUTTON_MODE → initStrip.activeLedState = 1 →
      initStrip.readingsCounter < readings1.length) :=
  ⟨by decide, (playback_cursor_safety readings1 initStrip (by decide) Reachable.init).1⟩
